import Mathlib

/-!
Verification of the uvgRTP reception core (reception_flow.cc) and the SRTCP
transform (srtcp.cc) against its natural-language specification.

The C++ sources are shallowly embedded: machine integers become Nat or Int
with explicit modular arithmetic where the source wraps, byte buffers become
List Nat, and the two thread loops become explicit step functions on a state
record.  Handlers are external collaborators of the core; the core only
inspects the rtp_error code a handler returns and the frame it hands back, so
a handler is embedded as the code it returns plus the frames it produces.
Cryptographic primitives (HMAC-SHA1, the AES-CTR keystream) and a few helpers
live in repository files that are not part of the given sources; those are
modelled from the specification and marked as such in their doc comments.
-/

/-! ### Constants (reception_flow.cc lines 22-24, util.hh values restated by the spec) -/

def IPV4_HDR_SIZE : Nat := 20

def UDP_HDR_SIZE : Nat := 8

/-- RECV_BUFFER_SIZE = 0xffff - IPV4_HDR_SIZE - UDP_HDR_SIZE (reception_flow.cc line 22);
the slot capacity, 65507 bytes. -/
def RECV_BUFFER_SIZE : Nat := 0xffff - IPV4_HDR_SIZE - UDP_HDR_SIZE

def DEFAULT_INITIAL_BUFFER_SIZE : Nat := 4194304

def UVG_AUTH_TAG_LENGTH : Nat := 10

def UVG_SRTCP_INDEX_LENGTH : Nat := 4

def UVG_AES_KEY_LENGTH : Nat := 16

/-- Error and handler-result codes of util.hh used by the embedded sources. -/
inductive rtp_error where
  | RTP_OK
  | RTP_INTERRUPTED
  | RTP_INVALID_VALUE
  | RTP_AUTH_TAG_MISMATCH
  | RTP_GENERIC_ERROR
  | RTP_PKT_NOT_HANDLED
  | RTP_PKT_MODIFIED
  | RTP_PKT_READY
  | RTP_MULTIPLE_PKTS_READY
deriving DecidableEq, Repr

/-! ### Ring buffer and receiver/processor loops (reception_flow.cc)

A slot is a pair (data, read) owned by the ring.  For the datagram-flow
claims only the datagram carried by a slot matters, so a slot is embedded as
`Option Nat`: `none` is a freshly allocated slot (read = 0, no datagram) and
`some d` a slot whose last successful recvfrom stored datagram `d`. -/

structure reception_ring where
  ring_buffer : List (Option Nat)
  /-- ring_read_index_, an int initialised to -1 (reception_flow.cc line 33). -/
  ring_read_index : Int
  /-- last_ring_write_index_, an int initialised to 0 (reception_flow.cc line 34). -/
  last_ring_write_index : Int
deriving DecidableEq, Repr

/-- next_buffer_location (reception_flow.cc lines 484-487):
`(current_location + 1) % ring_buffer_.size()`.  In every reachable call the
current location is at least -1, so the dividend is nonnegative and
`Int.emod` agrees with the C++ unsigned conversion. -/
def next_buffer_location (r : reception_ring) (current_location : Int) : Int :=
  (current_location + 1) % (r.ring_buffer.length : Int)

/-- create_ring_buffer at construction (reception_flow.cc lines 27-38, 58-67):
`elements = buffer_size / RECV_BUFFER_SIZE` slots are allocated, with no lower
bound, and the constructor sets ring_read_index_ = -1 and
last_ring_write_index_ = 0. -/
def create_ring_buffer (buffer_size_bytes : Nat) : reception_ring :=
  { ring_buffer := List.replicate (buffer_size_bytes / RECV_BUFFER_SIZE) none
    ring_read_index := -1
    last_ring_write_index := 0 }

/-- set_buffer_size (reception_flow.cc lines 78-82): stores the value and
recreates the ring with `value / RECV_BUFFER_SIZE` slots; the two cursor
fields are not touched. -/
def set_buffer_size (r : reception_ring) (value : Nat) : reception_ring :=
  { ring_buffer := List.replicate (value / RECV_BUFFER_SIZE) none
    ring_read_index := r.ring_read_index
    last_ring_write_index := r.last_ring_write_index }

/-- Iterate a function n times. -/
def applyN (f : α → α) : Nat → α → α
  | 0, a => a
  | n + 1, a => applyN f n (f a)

/-- One iteration of the growth loop body (reception_flow.cc lines 384-388):
insert one fresh slot at position next_write_index, then ++ring_read_index_. -/
def grow_ring_once (next_write_index : Nat) (r : reception_ring) : reception_ring :=
  { ring_buffer :=
      r.ring_buffer.take next_write_index ++ none :: r.ring_buffer.drop next_write_index
    ring_read_index := r.ring_read_index + 1
    last_ring_write_index := r.last_ring_write_index }

/-- One successful pass of the receiver inner loop storing datagram `d`
(reception_flow.cc lines 367-407): compute next_write_index; if it equals
ring_read_index_, grow by size/4 slots (at least one), inserting each at
next_write_index and incrementing ring_read_index_ once per slot; recvfrom
stores the datagram in slot next_write_index; finally publish by assigning
last_ring_write_index_ = next_write_index. -/
def receiver_store_packet (d : Nat) (r : reception_ring) : reception_ring :=
  let next_write_index : Int := next_buffer_location r r.last_ring_write_index
  let r1 :=
    if next_write_index = r.ring_read_index then
      let increase0 := r.ring_buffer.length / 4
      let increase := if increase0 = 0 then increase0 + 1 else increase0
      applyN (grow_ring_once next_write_index.toNat) increase r
    else r
  { ring_buffer := r1.ring_buffer.set next_write_index.toNat (some d)
    ring_read_index := r1.ring_read_index
    last_ring_write_index := next_write_index }

/-- The processor drain loop (reception_flow.cc lines 440-478): while
next_buffer_location(ring_read_index_) differs from last_ring_write_index_,
advance ring_read_index_ and hand the slot there to the handler chain.  The
returned list is the sequence of slot contents handed to the handlers, in
order.  The loop advances the read cursor one ring position per iteration, so
it runs at most ring size many iterations; the fuel makes that explicit. -/
def process_drain_aux (fuel : Nat) (r : reception_ring) :
    reception_ring × List (Option Nat) :=
  match fuel with
  | 0 => (r, [])
  | fuel' + 1 =>
    if next_buffer_location r r.ring_read_index ≠ r.last_ring_write_index then
      let ri := next_buffer_location r r.ring_read_index
      let r' : reception_ring :=
        { ring_buffer := r.ring_buffer
          ring_read_index := ri
          last_ring_write_index := r.last_ring_write_index }
      let out := r.ring_buffer.getD ri.toNat none
      let rest := process_drain_aux fuel' r'
      (rest.1, out :: rest.2)
    else (r, [])

/-- One wake-up of the processor thread: drain everything available. -/
def process_drain (r : reception_ring) : reception_ring × List (Option Nat) :=
  process_drain_aux (r.ring_buffer.length + 1) r

/-- An interleaving event of the two threads: the receiver stores one datagram,
or the processor wakes and drains. -/
inductive flow_event where
  | write_pkt (d : Nat)
  | drain
deriving DecidableEq, Repr

/-- Run a sequence of receiver/processor events, collecting every slot content
handed to the handler chain, in order. -/
def run_flow : reception_ring → List flow_event → reception_ring × List (Option Nat)
  | r, [] => (r, [])
  | r, flow_event.write_pkt d :: evs => run_flow (receiver_store_packet d r) evs
  | r, flow_event.drain :: evs =>
    let step := process_drain r
    let rest := run_flow step.1 evs
    (rest.1, step.2 ++ rest.2)

/-! ### Receiver outer loop and shutdown flag (reception_flow.cc lines 329-420) -/

structure reception_flow_state where
  ring : reception_ring
  /-- should_stop_, the shutdown flag. -/
  should_stop : Bool
deriving DecidableEq, Repr

/-- One round of the receiver outer loop (reception_flow.cc lines 333-419).
`poll_result` is the return value of poll(2); `pollin` whether revents has
POLLIN; `pkts` the datagrams the inner recvfrom loop stores before it would
block; `recv_fail` whether the burst ends with a recvfrom failure that is
neither RTP_INTERRUPTED nor a zero-byte read.  The second component is true
when the round exits the outer loop.  A negative poll result logs and breaks
out of the loop (lines 353-362) without touching should_stop_; a fatal
recvfrom failure sets should_stop_ = true (lines 400-404). -/
def receiver_round (poll_result : Int) (pollin : Bool) (pkts : List Nat)
    (recv_fail : Bool) (s : reception_flow_state) :
    reception_flow_state × Bool :=
  if poll_result < 0 then (s, true)
  else if pollin then
    let ring' := pkts.foldl (fun r d => receiver_store_packet d r) s.ring
    if recv_fail then ({ ring := ring', should_stop := true }, true)
    else ({ ring := ring', should_stop := s.should_stop }, false)
  else (s, false)

/-! ### Pull operations (reception_flow.cc lines 143-181)

Both pull operations poll the frame FIFO in small sleeps.  The model observes
one call against a fixed flag and FIFO (no concurrent mutation), which is
exactly the situation the claims describe.  For pull_frame without a timeout,
a state with an empty FIFO and a clear flag never leaves the waiting loop, so
the call blocks; the outer Option is `none` for that blocked case. -/

def pull_frame (should_stop : Bool) (frames : List Nat) :
    Option (Option Nat × List Nat) :=
  if frames.isEmpty && !should_stop then none
  else if should_stop then some (none, frames)
  else some (frames.head?, frames.tail)

/-- pull_frame(timeout_ms): the waiting loop always exits (at the latest when
the timeout lapses); afterwards the source returns nullptr when should_stop_
or the FIFO is empty, otherwise the front frame is removed and returned. -/
def pull_frame_timeout (should_stop : Bool) (frames : List Nat) :
    Option Nat × List Nat :=
  if should_stop || frames.isEmpty then (none, frames)
  else (frames.head?, frames.tail)

/-! ### Handler registry and dispatch (reception_flow.cc lines 183-327, 448-477)

The container holding the registry is declared in reception_flow.hh, which is
not among the given sources; the specification states that primaries are
iterated in insertion order, so the registry is modelled from the spec as an
insertion-ordered association list keyed by the 32-bit handler key.

A handler is an external collaborator: the dispatch code only inspects the
rtp_error it returns and the frames it hands back, so an auxiliary entry is
embedded as the code it returns, the frame it produces when it returns
RTP_PKT_READY, and the scripted responses of its getter. -/

structure auxiliary_handler where
  /-- Identifies the entry in invocation traces. -/
  id : Nat
  /-- The code the handler call returns for the processed packet. -/
  ret : rtp_error
  /-- The frame handed back when the handler returns RTP_PKT_READY. -/
  frame : Nat
  /-- Scripted getter responses: each call pops one (code, frame) pair. -/
  getter : List (rtp_error × Nat)
deriving DecidableEq, Repr

/-- The RTP_MULTIPLE_PKTS_READY drain loop (reception_flow.cc lines 256-260,
290-294): call the getter repeatedly while it returns RTP_PKT_READY and emit
each frame it produced. -/
def drain_getter (g : List (rtp_error × Nat)) : List Nat :=
  (g.takeWhile (fun p => p.1 == rtp_error.RTP_PKT_READY)).map (fun p => p.2)

/-- The per-auxiliary switch (reception_flow.cc lines 251-280 and 284-325;
both flavors have the same observable behaviour): the frames passed to
return_frame by one auxiliary call.  Every branch falls through to the next
auxiliary in the loop. -/
def call_one_aux (a : auxiliary_handler) : List Nat :=
  match a.ret with
  | rtp_error.RTP_OK => []
  | rtp_error.RTP_MULTIPLE_PKTS_READY => drain_getter a.getter
  | rtp_error.RTP_PKT_READY => [a.frame]
  | rtp_error.RTP_PKT_NOT_HANDLED => []
  | rtp_error.RTP_PKT_MODIFIED => []
  | _ => []

/-- One of the two range-for loops of call_aux_handlers: returns the
invocation trace (entry ids in call order) and the frames passed to
return_frame, in order. -/
def run_aux_list : List auxiliary_handler → List Nat × List Nat
  | [] => ([], [])
  | a :: rest =>
    let tail := run_aux_list rest
    (a.id :: tail.1, call_one_aux a ++ tail.2)

/-- The registry entry for one key (struct packet_handlers): the primary and
the two auxiliary vectors.  The primary is embedded as the code it returns
for the processed packet. -/
structure packet_handlers where
  primary : rtp_error
  auxiliary : List auxiliary_handler
  auxiliary_cpp : List auxiliary_handler
deriving DecidableEq, Repr

/-- call_aux_handlers (reception_flow.cc lines 246-327): first the whole
`auxiliary` vector in order, then the whole `auxiliary_cpp` vector in order.
Returns (invocation trace, frames delivered via return_frame). -/
def call_aux_handlers (h : packet_handlers) : List Nat × List Nat :=
  let c := run_aux_list h.auxiliary
  let cpp := run_aux_list h.auxiliary_cpp
  (c.1 ++ cpp.1, c.2 ++ cpp.2)

/-- The handler loop of process_packet for one drained slot (reception_flow.cc
lines 448-477): every primary is called in registry order whatever it
returns; only RTP_PKT_MODIFIED dispatches the auxiliaries of that key.
Returns (trace of primary keys called, frames delivered). -/
def process_packet_handlers : List (Nat × packet_handlers) → List Nat × List Nat
  | [] => ([], [])
  | (k, h) :: rest =>
    let emitted :=
      match h.primary with
      | rtp_error.RTP_PKT_MODIFIED => (call_aux_handlers h).2
      | _ => []
    let tail := process_packet_handlers rest
    (k :: tail.1, emitted ++ tail.2)

/-- install_handler (reception_flow.cc lines 183-196).  A null handler returns
key 0 at once.  Otherwise the do-while loop draws 32-bit values from
uvgrtp::random::generate_32 (random.hh, not among the given sources, modelled
as the stream `randoms`) until one is nonzero and not yet a key of the
registry; that key is registered.  When the stream holds no suitable value
the source loop never exits, which the model reports as `none`. -/
def install_handler (randoms : List Nat) (reg : List (Nat × packet_handlers))
    (handler : Option rtp_error) : Option (Nat × List (Nat × packet_handlers)) :=
  match handler with
  | none => some (0, reg)
  | some p =>
    match randoms.find? (fun r => !(r == 0) && !(reg.any (fun e => e.1 == r))) with
    | some key =>
      some (key, reg ++ [(key, { primary := p, auxiliary := [], auxiliary_cpp := [] })])
    | none => none

/-- install_aux_handler (reception_flow.cc lines 198-218): null handler or
unknown key fail with RTP_INVALID_VALUE; otherwise the entry is appended to
the `auxiliary` vector of that key. -/
def install_aux_handler (reg : List (Nat × packet_handlers)) (key : Nat)
    (handler : Option auxiliary_handler) : rtp_error × List (Nat × packet_handlers) :=
  match handler with
  | none => (rtp_error.RTP_INVALID_VALUE, reg)
  | some a =>
    if reg.any (fun e => e.1 == key) then
      (rtp_error.RTP_OK,
        reg.map (fun e =>
          if e.1 == key then
            (e.1, { primary := e.2.primary
                    auxiliary := e.2.auxiliary ++ [a]
                    auxiliary_cpp := e.2.auxiliary_cpp })
          else e))
    else (rtp_error.RTP_INVALID_VALUE, reg)

/-- install_aux_handler_cpp (reception_flow.cc lines 220-233): as
install_aux_handler but appending to the `auxiliary_cpp` vector. -/
def install_aux_handler_cpp (reg : List (Nat × packet_handlers)) (key : Nat)
    (handler : Option auxiliary_handler) : rtp_error × List (Nat × packet_handlers) :=
  match handler with
  | none => (rtp_error.RTP_INVALID_VALUE, reg)
  | some a =>
    if reg.any (fun e => e.1 == key) then
      (rtp_error.RTP_OK,
        reg.map (fun e =>
          if e.1 == key then
            (e.1, { primary := e.2.primary
                    auxiliary := e.2.auxiliary
                    auxiliary_cpp := e.2.auxiliary_cpp ++ [a] })
          else e))
    else (rtp_error.RTP_INVALID_VALUE, reg)

/-- A registry built by installing, under one key, auxiliary 1 (context
flavor), then auxiliary 2 (closure flavor), then auxiliary 3 (context
flavor): installation order of the auxiliaries is 1, 2, 3. -/
def c5_example_registry : List (Nat × packet_handlers) :=
  let r1 : List (Nat × packet_handlers) :=
    [(5, { primary := rtp_error.RTP_PKT_MODIFIED, auxiliary := [], auxiliary_cpp := [] })]
  let r2 := (install_aux_handler r1 5
    (some { id := 1, ret := rtp_error.RTP_OK, frame := 0, getter := [] })).2
  let r3 := (install_aux_handler_cpp r2 5
    (some { id := 2, ret := rtp_error.RTP_OK, frame := 0, getter := [] })).2
  (install_aux_handler r3 5
    (some { id := 3, ret := rtp_error.RTP_OK, frame := 0, getter := [] })).2

/-! ### SRTCP transform (srtcp.cc)

The key context (srtp_ctx_->key_ctx) holds local and remote key material.
The AES-CTR cipher and HMAC-SHA1 live in crypto.hh, which is not among the
given sources; AES-CTR is modelled from the specification as a keystream
function of (encryption key, IV) XORed bytewise over the data, which is what
running AES in CTR mode means, and HMAC-SHA1 is an abstract parameter of the
statements about verify_auth_tag. -/

structure srtp_key_ctx where
  enc_key : List Nat
  auth_key : List Nat
  salt_key : List Nat
deriving DecidableEq, Repr

structure srtcp_ctx where
  local_keys : srtp_key_ctx
  remote_keys : srtp_key_ctx
  /-- use_null_cipher_: set when the null cipher is configured. -/
  use_null_cipher : Bool
  /-- roc: the rollover counter. -/
  roc : Nat
deriving DecidableEq, Repr

/-- Big-endian bytes of a 32-bit value. -/
def be32 (x : Nat) : List Nat :=
  [x / 16777216 % 256, x / 65536 % 256, x / 256 % 256, x % 256]

/-- Modelled from the spec: create_iv (crypto helper, not among the given
sources).  Per the specification the IV is the salt XORed with a 16-byte
layout that places ssrc and the packet index at the SRTP byte offsets (ssrc
in bytes 4-7, the 32-bit index in the low bytes 10-13 of the 48-bit index
field, the salt shifted into bytes 0-13). -/
def create_iv (ssrc seq : Nat) (salt_key : List Nat) : List Nat :=
  List.zipWith Nat.xor (salt_key ++ [0, 0])
    ([0, 0, 0, 0] ++ be32 ssrc ++ [0, 0] ++ be32 seq ++ [0, 0])

/-- Modelled from the spec: running AES in CTR mode XORs the data with the
keystream determined by the key and the IV; `ks i` is the keystream byte at
position `i` and the transform starts at keystream position `start`. -/
def aes_ctr_xor (ks : Nat → Nat) : Nat → List Nat → List Nat
  | _, [] => []
  | start, b :: rest => (b ^^^ ks start % 256) :: aes_ctr_xor ks (start + 1) rest

/-- srtcp::encrypt (srtcp.cc lines 18-34): with the null cipher configured it
returns RTP_OK leaving the buffer untouched; otherwise it derives the IV from
(ssrc, seq, local salt) and runs AES-CTR with the local encryption key over
the whole buffer, from keystream position 0.  `aes_keystream` maps an
encryption key and an IV to the keystream. -/
def srtcp_encrypt (aes_keystream : List Nat → List Nat → Nat → Nat)
    (ctx : srtcp_ctx) (ssrc seq : Nat) (buffer : List Nat) :
    rtp_error × List Nat :=
  if ctx.use_null_cipher then (rtp_error.RTP_OK, buffer)
  else
    let iv := create_iv ssrc seq ctx.local_keys.salt_key
    (rtp_error.RTP_OK,
      aes_ctr_xor (aes_keystream ctx.local_keys.enc_key iv) 0 buffer)

/-- srtcp::decrypt (srtcp.cc lines 69-83): derives the IV from (ssrc, seq,
remote salt) and runs AES-CTR with the remote encryption key over
buffer[8 .. size - UVG_AUTH_TAG_LENGTH - UVG_SRTCP_INDEX_LENGTH) only,
again from keystream position 0; the first 8 bytes and the trailing index
and tag bytes pass through unchanged.  The use_null_cipher_ flag is never
consulted. -/
def srtcp_decrypt (aes_keystream : List Nat → List Nat → Nat → Nat)
    (ctx : srtcp_ctx) (ssrc seq : Nat) (buffer : List Nat) :
    rtp_error × List Nat :=
  let iv := create_iv ssrc seq ctx.remote_keys.salt_key
  (rtp_error.RTP_OK,
    buffer.take 8
      ++ aes_ctr_xor (aes_keystream ctx.remote_keys.enc_key iv) 0
          ((buffer.drop 8).take
            (buffer.length - 8 - UVG_AUTH_TAG_LENGTH - UVG_SRTCP_INDEX_LENGTH))
      ++ buffer.drop (buffer.length - UVG_AUTH_TAG_LENGTH - UVG_SRTCP_INDEX_LENGTH))

/-- The bytes of the 32-bit rollover counter as hashed by add_auth_tag and
verify_auth_tag: `update((uint8_t *)&roc, sizeof(roc))`, host (little-endian)
byte order. -/
def roc_bytes (roc : Nat) : List Nat :=
  [roc % 256, roc / 256 % 256, roc / 65536 % 256, roc / 16777216 % 256]

/-- srtcp::verify_auth_tag (srtcp.cc lines 47-67).  `hmac_sha1 key msg` is
the truncated 10-byte HMAC-SHA1 digest, an abstract parameter (crypto.hh is
not among the given sources).  The digest is computed over the buffer prefix
of length len - UVG_AUTH_TAG_LENGTH followed by the rollover counter bytes,
keyed with the remote auth key; a digest differing from the received tag
yields RTP_AUTH_TAG_MISMATCH; only then is the replay window consulted
(is_replayed_packet, modelled from the spec: a digest already observed is a
replay, otherwise it is recorded), a replay yielding RTP_INVALID_VALUE. -/
def verify_auth_tag (hmac_sha1 : List Nat → List Nat → List Nat)
    (auth_key : List Nat) (roc : Nat) (replay_list : List (List Nat))
    (buffer : List Nat) : rtp_error × List (List Nat) :=
  let digest :=
    hmac_sha1 auth_key
      (buffer.take (buffer.length - UVG_AUTH_TAG_LENGTH) ++ roc_bytes roc)
  if digest ≠ buffer.drop (buffer.length - UVG_AUTH_TAG_LENGTH) then
    (rtp_error.RTP_AUTH_TAG_MISMATCH, replay_list)
  else if replay_list.contains digest then
    (rtp_error.RTP_INVALID_VALUE, replay_list)
  else (rtp_error.RTP_OK, digest :: replay_list)

/-! ### Concrete instances used by counterexamples and witnesses -/

/-- A concrete keystream whose first byte is 1 for every key and IV. -/
def ks_ex : List Nat → List Nat → Nat → Nat := fun _ _ i => i + 1

def key_ctx_ex : srtp_key_ctx :=
  { enc_key := List.replicate 16 43
    auth_key := List.replicate 16 43
    salt_key := List.replicate 14 43 }

def ctx_ex : srtcp_ctx :=
  { local_keys := key_ctx_ex
    remote_keys := key_ctx_ex
    use_null_cipher := false
    roc := 0 }

def ctx_null_ex : srtcp_ctx :=
  { local_keys := key_ctx_ex
    remote_keys := key_ctx_ex
    use_null_cipher := true
    roc := 0 }

/-- A 22-byte all-zero packet: the shortest SRTCP framing (8-byte header and
sender ssrc, empty payload, 4-byte index, 10-byte tag). -/
def buf_ex : List Nat := List.replicate 22 0

/-- A concrete stand-in for the truncated HMAC digest in witnesses. -/
def hmac_ex : List Nat → List Nat → List Nat :=
  fun _ msg => List.replicate 10 (msg.length % 256)

/-- A 30-byte all-zero packet: 8 bytes of header and sender ssrc, 8 bytes of
payload, 4-byte index, 10-byte tag. -/
def buf_ex2 : List Nat := List.replicate 30 0

/-- A 12-byte buffer whose trailing 10 bytes equal the hmac_ex digest of its
2-byte prefix and the rollover counter 0. -/
def c3_buf : List Nat := [7, 7] ++ List.replicate 10 6

/-- An auxiliary entry returning RTP_MULTIPLE_PKTS_READY whose getter yields
RTP_PKT_READY exactly twice (frames 11 and 12) and then RTP_OK. -/
def c5_wit_aux : auxiliary_handler :=
  { id := 4
    ret := rtp_error.RTP_MULTIPLE_PKTS_READY
    frame := 0
    getter := [(rtp_error.RTP_PKT_READY, 11), (rtp_error.RTP_PKT_READY, 12),
               (rtp_error.RTP_OK, 0)] }

def c5_wit_handlers : packet_handlers :=
  { primary := rtp_error.RTP_PKT_MODIFIED
    auxiliary := [c5_wit_aux]
    auxiliary_cpp := [] }

/-- The flow state right after construction with the default 4 MiB buffer. -/
def flow_state_ex : reception_flow_state :=
  { ring := create_ring_buffer DEFAULT_INITIAL_BUFFER_SIZE
    should_stop := false }

/-- Three datagrams received in one burst before the processor ever drains,
then a drain, then a fourth datagram (which triggers one growth event) and a
final drain.  With a two-slot ring this exercises the initial
ring_read_index_ = -1 state. -/
def c1_burst_events : List flow_event :=
  [flow_event.write_pkt 1, flow_event.write_pkt 2, flow_event.write_pkt 3,
   flow_event.drain, flow_event.write_pkt 4, flow_event.drain]

/-! ### Helper lemmas -/

theorem aes_ctr_xor_involution (ks : Nat → Nat) (start : Nat) (l : List Nat) :
    aes_ctr_xor ks start (aes_ctr_xor ks start l) = l := by
  induction l generalizing start with
  | nil => rfl
  | cons b rest ih =>
    simp only [aes_ctr_xor, List.cons.injEq]
    refine ⟨?_, ih (start + 1)⟩
    rw [Nat.xor_assoc, Nat.xor_self, Nat.xor_zero]

theorem srtcp_decrypt_head (ks : List Nat → List Nat → Nat → Nat) (ctx : srtcp_ctx)
    (ssrc seq : Nat) (buffer : List Nat) :
    ((srtcp_decrypt ks ctx ssrc seq buffer).2).head? = buffer.head? := by
  cases buffer with
  | nil => rfl
  | cons c ys =>
    simp only [srtcp_decrypt]
    rw [show (8 : Nat) = 7 + 1 from rfl, List.take_succ_cons]
    simp

theorem srtcp_decrypt_concat (ks : List Nat → List Nat → Nat → Nat) (ctx : srtcp_ctx)
    (ssrc seq : Nat) (A M C : List Nat) (hA : A.length = 8) (hC : C.length = 14) :
    (srtcp_decrypt ks ctx ssrc seq (A ++ M ++ C)).2
      = A ++ aes_ctr_xor
          (ks ctx.remote_keys.enc_key (create_iv ssrc seq ctx.remote_keys.salt_key)) 0 M
        ++ C := by
  have h1 : (A ++ M ++ C).take 8 = A := by
    rw [List.append_assoc]; exact List.take_left' hA
  have h2 : (A ++ M ++ C).drop 8 = M ++ C := by
    rw [List.append_assoc]; exact List.drop_left' hA
  have h3 : (A ++ M ++ C).length - 8 - UVG_AUTH_TAG_LENGTH - UVG_SRTCP_INDEX_LENGTH
      = M.length := by
    simp only [List.length_append, hA, hC, UVG_AUTH_TAG_LENGTH, UVG_SRTCP_INDEX_LENGTH]
    omega
  have h4 : (A ++ M ++ C).drop
      ((A ++ M ++ C).length - UVG_AUTH_TAG_LENGTH - UVG_SRTCP_INDEX_LENGTH) = C := by
    apply List.drop_left'
    simp only [List.length_append, hA, hC, UVG_AUTH_TAG_LENGTH, UVG_SRTCP_INDEX_LENGTH]
    omega
  simp only [srtcp_decrypt]
  rw [h1, h2, h3, List.take_left, h4]

theorem drain_getter_script (frames : List Nat) (rest : List (rtp_error × Nat))
    (hstop : ∀ p, rest.head? = some p → p.1 ≠ rtp_error.RTP_PKT_READY) :
    drain_getter (frames.map (fun f => (rtp_error.RTP_PKT_READY, f)) ++ rest) = frames := by
  induction frames with
  | nil =>
    cases rest with
    | nil => rfl
    | cons p t =>
      have hp : (p.1 == rtp_error.RTP_PKT_READY) = false :=
        beq_eq_false_iff_ne.mpr (hstop p rfl)
      simp only [List.map_nil, List.nil_append, drain_getter, List.takeWhile_cons, hp]
      rfl
  | cons f fs ih =>
    simp only [List.map_cons, List.cons_append, drain_getter, List.takeWhile_cons]
    simp only [drain_getter] at ih
    simp only [show ((rtp_error.RTP_PKT_READY, f).1 == rtp_error.RTP_PKT_READY) = true
        from rfl]
    simp only [if_true, List.map_cons, ih]

theorem run_aux_list_trace (l : List auxiliary_handler) :
    (run_aux_list l).1 = l.map (fun a => a.id) := by
  induction l with
  | nil => rfl
  | cons a rest ih => simp [run_aux_list, ih]

theorem run_aux_list_frames (l : List auxiliary_handler) :
    (run_aux_list l).2 = l.flatMap call_one_aux := by
  induction l with
  | nil => rfl
  | cons a rest ih => simp [run_aux_list, ih]

theorem process_packet_handlers_trace (reg : List (Nat × packet_handlers)) :
    (process_packet_handlers reg).1 = reg.map (fun e => e.1) := by
  induction reg with
  | nil => rfl
  | cons e rest ih =>
    obtain ⟨k, h⟩ := e
    simp [process_packet_handlers, ih]

theorem install_handler_some {randoms : List Nat} {reg : List (Nat × packet_handlers)}
    {p : rtp_error} {key : Nat} {reg' : List (Nat × packet_handlers)}
    (h : install_handler randoms reg (some p) = some (key, reg')) :
    key ≠ 0 ∧ (∀ e ∈ reg, e.1 ≠ key)
      ∧ reg' = reg ++ [(key, { primary := p, auxiliary := [], auxiliary_cpp := [] })] := by
  cases hf : randoms.find? (fun r => !(r == 0) && !(reg.any (fun e => e.1 == r))) with
  | none =>
    simp only [install_handler, hf] at h
    exact absurd h (by simp)
  | some k =>
    simp only [install_handler, hf] at h
    obtain ⟨hk, hr⟩ := Prod.mk.inj (Option.some.inj h)
    have hpred := List.find?_some hf
    simp only [Bool.and_eq_true, Bool.not_eq_true'] at hpred
    obtain ⟨h0, hany⟩ := hpred
    refine ⟨?_, ?_, ?_⟩
    · rw [← hk]
      exact beq_eq_false_iff_ne.mp h0
    · intro e he heq
      rw [← hk] at heq
      have hmem : reg.any (fun x => x.1 == k) = true :=
        List.any_eq_true.mpr ⟨e, he, by simp [heq]⟩
      rw [hany] at hmem
      exact absurd hmem (by simp)
    · rw [← hr, hk]

/-! ### Claim theorems -/

/-- C1: the claim asserts that whenever the next intended write index equals
read_index the ring grows (which the code does), and that after any number of
growth events no datagram acknowledged by the Receiver is dropped or
reordered.  The code violates the second part: while ring_read_index_ is
still -1 (the processor has not yet completed a drain step) the growth check
`next_write_index == ring_read_index_` can never fire, so a burst of writes
wraps and overwrites published slots.  With a two-slot ring (buffer size
131014 bytes) and burst 1, 2, 3, datagram 3 overwrites datagram 1; after a
drain, one growth event (triggered by datagram 4) and a final drain, the
handlers have seen only datagrams 2 and 3 and datagram 1 is in neither the
ring nor the processed output: it was written, published via
last_ring_write_index_, and lost. -/
theorem C1_initial_read_index_loses_datagram :
    run_flow (create_ring_buffer 131014) c1_burst_events
      = ({ ring_buffer := [some 4, some 2, some 3]
           ring_read_index := 2
           last_ring_write_index := 0 }, [some 2, some 3])
    ∧ some 1 ∉ (run_flow (create_ring_buffer 131014) c1_burst_events).1.ring_buffer
    ∧ some 1 ∉ (run_flow (create_ring_buffer 131014) c1_burst_events).2 := by
  decide

/-- C2 counterexample: for the target capacity B = 100 bytes the code
allocates zero slots, not max(1, B / SLOT_CAPACITY) = 1: there is no lower
clamp in create_ring_buffer. -/
theorem C2_no_minimum_slot_counterexample :
    (create_ring_buffer 100).ring_buffer.length = 0
    ∧ (create_ring_buffer 100).ring_buffer.length ≠ max 1 (100 / RECV_BUFFER_SIZE) := by
  decide

/-- C2 (amended): for every target capacity B, construction and
set_buffer_size allocate exactly B / RECV_BUFFER_SIZE slots (integer
division, no lower clamp); at least one slot results exactly when
B ≥ RECV_BUFFER_SIZE, and only then is the mod-N arithmetic of
next_buffer_location taken at a nonzero modulus. -/
theorem C2_ring_slot_count (B : Nat) (h : RECV_BUFFER_SIZE ≤ B) :
    (∀ (B' : Nat) (r : reception_ring),
        (create_ring_buffer B').ring_buffer.length = B' / RECV_BUFFER_SIZE
        ∧ (set_buffer_size r B').ring_buffer.length = B' / RECV_BUFFER_SIZE)
    ∧ 1 ≤ (create_ring_buffer B).ring_buffer.length := by
  constructor
  · intro B' r
    constructor
    · simp [create_ring_buffer]
    · simp [set_buffer_size]
  · simp only [create_ring_buffer, List.length_replicate]
    exact (Nat.one_le_div_iff (by decide)).mpr h

theorem C2_ring_slot_count_witness :
    1 ≤ (create_ring_buffer 65507).ring_buffer.length :=
  (C2_ring_slot_count 65507 (by decide)).2

/-- C7 counterexample: a failed poll (return value -1) makes the receiver
exit its loop (second component true) while should_stop_ is left false, so
the claim that poll failure sets the shutdown flag is false at this input. -/
theorem C7_poll_failure_counterexample :
    (receiver_round (-1) false [] false flow_state_ex).2 = true
    ∧ (receiver_round (-1) false [] false flow_state_ex).1.should_stop = false := by
  decide

/-- C7 (amended): a failed poll makes the Receiver exit its loop with the
whole flow state, in particular the shutdown flag, unchanged; only a fatal
recvfrom failure sets the shutdown flag. -/
theorem C7_poll_failure_exits (poll_result : Int) (pollin : Bool) (pkts : List Nat)
    (recv_fail : Bool) (s : reception_flow_state) (h : poll_result < 0) :
    receiver_round poll_result pollin pkts recv_fail s = (s, true)
    ∧ ∀ (pkts' : List Nat) (s' : reception_flow_state),
        (receiver_round 1 true pkts' true s').1.should_stop = true := by
  constructor
  · simp [receiver_round, h]
  · intro pkts' s'
    simp only [receiver_round, if_neg (by decide : ¬ (1 : Int) < 0), if_pos rfl, if_true]

theorem C7_poll_failure_exits_witness :
    receiver_round (-1) true [5] false flow_state_ex = (flow_state_ex, true) :=
  (C7_poll_failure_exits (-1) true [5] false flow_state_ex (by decide)).1

/-- C10: once the shutdown flag is set, pull_frame returns nullptr without
blocking and pull_frame(timeout_ms) returns nullptr, both leaving the frame
FIFO untouched, for every FIFO content including a non-empty one. -/
theorem C10_pull_after_shutdown (frames : List Nat) :
    pull_frame true frames = some (none, frames)
    ∧ pull_frame_timeout true frames = (none, frames) := by
  constructor
  · simp [pull_frame]
  · simp [pull_frame_timeout]

/-- C6 counterexample: with matching keys, a non-null cipher and a 22-byte
buffer, decrypt applied to the encrypt output does not restore the buffer:
encrypt transforms the whole buffer but decrypt leaves bytes 0-7 and the
trailing 14 bytes untouched, so byte 0 stays encrypted. -/
theorem C6_round_trip_counterexample :
    (srtcp_decrypt ks_ex ctx_ex 1 2 (srtcp_encrypt ks_ex ctx_ex 1 2 buf_ex).2).2 ≠ buf_ex := by
  decide

/-- C6 (amended): with a non-null cipher, decrypt does not invert encrypt:
for every buffer of SRTCP length (at least 22 bytes) whose keystream has a
nonzero first byte, decrypt of the encrypt output differs from the original
(the first byte stays encrypted, since encrypt transforms the whole buffer
with the keystream from position 0 while decrypt transforms only
buffer[8 .. len - 14) with the keystream again from position 0).  Each
transform is instead its own inverse: applying encrypt twice, or decrypt
twice, with the same context and (ssrc, seq) restores the buffer bytewise. -/
theorem C6_srtcp_transforms (ks : List Nat → List Nat → Nat → Nat) (ctx : srtcp_ctx)
    (ssrc seq : Nat) (x : List Nat)
    (hnull : ctx.use_null_cipher = false)
    (hlen : 22 ≤ x.length)
    (hks : ks ctx.local_keys.enc_key (create_iv ssrc seq ctx.local_keys.salt_key) 0 % 256 ≠ 0) :
    (srtcp_decrypt ks ctx ssrc seq (srtcp_encrypt ks ctx ssrc seq x).2).2 ≠ x
    ∧ (srtcp_encrypt ks ctx ssrc seq (srtcp_encrypt ks ctx ssrc seq x).2).2 = x
    ∧ (srtcp_decrypt ks ctx ssrc seq (srtcp_decrypt ks ctx ssrc seq x).2).2 = x := by
  refine ⟨?_, ?_, ?_⟩
  · intro heq
    have h1 := congrArg List.head? heq
    rw [srtcp_decrypt_head] at h1
    cases hx : x with
    | nil => rw [hx] at hlen; simp at hlen
    | cons x0 xs =>
      rw [hx] at h1
      have henc : (srtcp_encrypt ks ctx ssrc seq (x0 :: xs)).2
          = (x0 ^^^ ks ctx.local_keys.enc_key
                (create_iv ssrc seq ctx.local_keys.salt_key) 0 % 256)
            :: aes_ctr_xor
                (ks ctx.local_keys.enc_key (create_iv ssrc seq ctx.local_keys.salt_key))
                1 xs := by
        simp [srtcp_encrypt, hnull, aes_ctr_xor]
      rw [henc] at h1
      simp only [List.head?_cons, Option.some.injEq] at h1
      apply hks
      have h2 := congrArg (fun z => x0 ^^^ z) h1
      simpa [← Nat.xor_assoc, Nat.xor_self, Nat.zero_xor] using h2
  · simp [srtcp_encrypt, hnull, aes_ctr_xor_involution]
  · have hx : x = x.take 8 ++ (x.take (x.length - 14)).drop 8 ++ x.drop (x.length - 14) := by
      have h5 : x.take 8 ++ (x.take (x.length - 14)).drop 8 = x.take (x.length - 14) := by
        rw [show x.take 8 = (x.take (x.length - 14)).take 8 by
          rw [List.take_take, Nat.min_eq_left (by omega)]]
        exact List.take_append_drop 8 _
      rw [h5, List.take_append_drop]
    have hA : (x.take 8).length = 8 := by
      rw [List.length_take]
      omega
    have hC : (x.drop (x.length - 14)).length = 14 := by
      rw [List.length_drop]
      omega
    conv_lhs => rw [hx]
    rw [srtcp_decrypt_concat ks ctx ssrc seq _ _ _ hA hC,
      srtcp_decrypt_concat ks ctx ssrc seq _ _ _ hA hC,
      aes_ctr_xor_involution]
    exact hx.symm

theorem C6_srtcp_transforms_witness :
    (srtcp_decrypt ks_ex ctx_ex 1 2 (srtcp_encrypt ks_ex ctx_ex 1 2 buf_ex2).2).2 ≠ buf_ex2
    ∧ (srtcp_encrypt ks_ex ctx_ex 1 2 (srtcp_encrypt ks_ex ctx_ex 1 2 buf_ex2).2).2 = buf_ex2
    ∧ (srtcp_decrypt ks_ex ctx_ex 1 2 (srtcp_decrypt ks_ex ctx_ex 1 2 buf_ex2).2).2 = buf_ex2 :=
  C6_srtcp_transforms ks_ex ctx_ex 1 2 buf_ex2 rfl (by decide) (by decide)

/-- C9: with the null cipher configured, encrypt returns RTP_OK and leaves
the buffer unchanged, while decrypt never consults the null-cipher flag (its
result is the same for both flag values) and still applies the AES-CTR
transform: on a concrete 30-byte buffer under the null-cipher context,
decrypt changes the buffer, and decrypt of the encrypt output differs from
the original, so decrypt is not a no-op and does not invert encrypt. -/
theorem C9_null_cipher_asymmetry (ctx : srtcp_ctx) (h : ctx.use_null_cipher = true) :
    (∀ (ks : List Nat → List Nat → Nat → Nat) (ssrc seq : Nat) (buffer : List Nat),
        srtcp_encrypt ks ctx ssrc seq buffer = (rtp_error.RTP_OK, buffer))
    ∧ (∀ (ks : List Nat → List Nat → Nat → Nat) (ssrc seq : Nat) (buffer : List Nat)
          (b : Bool),
        srtcp_decrypt ks { ctx with use_null_cipher := b } ssrc seq buffer
          = srtcp_decrypt ks ctx ssrc seq buffer)
    ∧ (srtcp_decrypt ks_ex ctx_null_ex 1 2 buf_ex2).2 ≠ buf_ex2
    ∧ (srtcp_decrypt ks_ex ctx_null_ex 1 2
        (srtcp_encrypt ks_ex ctx_null_ex 1 2 buf_ex2).2).2 ≠ buf_ex2 := by
  refine ⟨?_, ?_, by decide, by decide⟩
  · intro ks ssrc seq buffer
    simp [srtcp_encrypt, h]
  · intro ks ssrc seq buffer b
    rfl

theorem C9_null_cipher_asymmetry_witness :
    srtcp_encrypt ks_ex ctx_null_ex 1 2 buf_ex2 = (rtp_error.RTP_OK, buf_ex2) :=
  (C9_null_cipher_asymmetry ctx_null_ex rfl).1 ks_ex 1 2 buf_ex2

/-- C3: verify_auth_tag returns RTP_AUTH_TAG_MISMATCH exactly when the
recomputed truncated HMAC-SHA1 digest (over the buffer prefix of length
len - 10 followed by the rollover counter bytes, keyed with the remote auth
key) differs from the received tag; on a matching tag whose digest is already
in the replay window the result is RTP_INVALID_VALUE; and an authenticated
packet not yet in the window yields RTP_OK and records its digest, so a
second delivery of the same packet yields RTP_INVALID_VALUE. -/
theorem C3_verify_auth_tag_replay (hmac_sha1 : List Nat → List Nat → List Nat)
    (auth_key : List Nat) (roc : Nat) (replay_list : List (List Nat)) (buffer : List Nat)
    (hmatch : hmac_sha1 auth_key
        (buffer.take (buffer.length - UVG_AUTH_TAG_LENGTH) ++ roc_bytes roc)
      = buffer.drop (buffer.length - UVG_AUTH_TAG_LENGTH))
    (hfresh : hmac_sha1 auth_key
        (buffer.take (buffer.length - UVG_AUTH_TAG_LENGTH) ++ roc_bytes roc)
      ∉ replay_list) :
    (∀ (w : List (List Nat)) (buf : List Nat),
        ((verify_auth_tag hmac_sha1 auth_key roc w buf).1 = rtp_error.RTP_AUTH_TAG_MISMATCH
          ↔ hmac_sha1 auth_key (buf.take (buf.length - UVG_AUTH_TAG_LENGTH) ++ roc_bytes roc)
              ≠ buf.drop (buf.length - UVG_AUTH_TAG_LENGTH)))
    ∧ (∀ w : List (List Nat),
        hmac_sha1 auth_key
            (buffer.take (buffer.length - UVG_AUTH_TAG_LENGTH) ++ roc_bytes roc) ∈ w →
        (verify_auth_tag hmac_sha1 auth_key roc w buffer).1 = rtp_error.RTP_INVALID_VALUE)
    ∧ verify_auth_tag hmac_sha1 auth_key roc replay_list buffer
        = (rtp_error.RTP_OK,
            hmac_sha1 auth_key
                (buffer.take (buffer.length - UVG_AUTH_TAG_LENGTH) ++ roc_bytes roc)
              :: replay_list)
    ∧ (verify_auth_tag hmac_sha1 auth_key roc
        (verify_auth_tag hmac_sha1 auth_key roc replay_list buffer).2 buffer).1
        = rtp_error.RTP_INVALID_VALUE := by
  have hfirst : verify_auth_tag hmac_sha1 auth_key roc replay_list buffer
      = (rtp_error.RTP_OK,
          hmac_sha1 auth_key
              (buffer.take (buffer.length - UVG_AUTH_TAG_LENGTH) ++ roc_bytes roc)
            :: replay_list) := by
    simp only [verify_auth_tag]
    rw [if_neg (not_not_intro hmatch),
      if_neg (fun hc => hfresh (List.mem_of_elem_eq_true hc))]
  refine ⟨?_, ?_, hfirst, ?_⟩
  · intro w buf
    simp only [verify_auth_tag]
    by_cases hd : hmac_sha1 auth_key
        (buf.take (buf.length - UVG_AUTH_TAG_LENGTH) ++ roc_bytes roc)
      = buf.drop (buf.length - UVG_AUTH_TAG_LENGTH)
    · rw [if_neg (not_not_intro hd)]
      constructor
      · intro hres
        by_cases hw : (w.contains (hmac_sha1 auth_key
            (buf.take (buf.length - UVG_AUTH_TAG_LENGTH) ++ roc_bytes roc))) = true
        · rw [if_pos hw] at hres
          simp at hres
        · rw [if_neg hw] at hres
          simp at hres
      · intro hne
        exact absurd hd hne
    · rw [if_pos hd]
      exact ⟨fun _ => hd, fun _ => rfl⟩
  · intro w hw
    simp only [verify_auth_tag]
    rw [if_neg (not_not_intro hmatch), if_pos (List.elem_eq_true_of_mem hw)]
  · rw [hfirst]
    simp only [verify_auth_tag]
    rw [if_neg (not_not_intro hmatch),
      if_pos (List.elem_eq_true_of_mem (List.mem_cons_self _ _))]

theorem C3_verify_auth_tag_replay_witness :
    verify_auth_tag hmac_ex [1] 0 [] c3_buf
      = (rtp_error.RTP_OK, [List.replicate 10 6])
    ∧ (verify_auth_tag hmac_ex [1] 0 (verify_auth_tag hmac_ex [1] 0 [] c3_buf).2 c3_buf).1
      = rtp_error.RTP_INVALID_VALUE :=
  ⟨(C3_verify_auth_tag_replay hmac_ex [1] 0 [] c3_buf (by decide) (by decide)).2.2.1,
   (C3_verify_auth_tag_replay hmac_ex [1] 0 [] c3_buf (by decide) (by decide)).2.2.2⟩

/-- C4: the Processor calls every installed primary handler, whatever each
returns, in the order the primaries appear in the registry, which (modelled
from the spec, the registry container being declared in the absent
reception_flow.hh) is insertion order; installing a further primary appends
its key to the dispatch order. -/
theorem C4_primary_dispatch_order (randoms : List Nat)
    (reg : List (Nat × packet_handlers)) (p : rtp_error) (key : Nat)
    (reg' : List (Nat × packet_handlers))
    (hinst : install_handler randoms reg (some p) = some (key, reg')) :
    (∀ reg₂ : List (Nat × packet_handlers),
        (process_packet_handlers reg₂).1 = reg₂.map (fun e => e.1))
    ∧ (process_packet_handlers reg').1 = (process_packet_handlers reg).1 ++ [key] := by
  refine ⟨process_packet_handlers_trace, ?_⟩
  obtain ⟨-, -, hr⟩ := install_handler_some hinst
  rw [hr, process_packet_handlers_trace, process_packet_handlers_trace, List.map_append]
  rfl

theorem C4_primary_dispatch_order_witness :
    (process_packet_handlers
        [(9, { primary := rtp_error.RTP_OK, auxiliary := [], auxiliary_cpp := [] })]).1
      = (process_packet_handlers []).1 ++ [9] :=
  (C4_primary_dispatch_order [9] [] rtp_error.RTP_OK 9
    [(9, { primary := rtp_error.RTP_OK, auxiliary := [], auxiliary_cpp := [] })]
    (by decide)).2

/-- C5 counterexample: installing, under one key, auxiliary 1 (context
flavor), auxiliary 2 (closure flavor) and auxiliary 3 (context flavor) in
that order produces the invocation order 1, 3, 2 — the whole `auxiliary`
vector runs before the `auxiliary_cpp` vector — which differs from the
cross-flavor installation order 1, 2, 3 asserted by the claim. -/
theorem C5_cross_flavor_order_counterexample :
    c5_example_registry.map (fun e => (call_aux_handlers e.2).1) = [[1, 3, 2]]
    ∧ [1, 3, 2] ≠ [1, 2, 3] := by
  decide

/-- C5 (amended): call_aux_handlers invokes the context-flavor auxiliaries of
the key first, in their installation order, then the closure-flavor
auxiliaries, in their installation order (so installation order holds within
each flavor but not across the two); the frames delivered are the
concatenation of each auxiliary's emissions in that same order; and an
auxiliary returning RTP_MULTIPLE_PKTS_READY whose getter returns
RTP_PKT_READY exactly m times emits exactly those m frames. -/
theorem C5_aux_dispatch (h : packet_handlers) (a : auxiliary_handler)
    (frames : List Nat) (rest : List (rtp_error × Nat))
    (hret : a.ret = rtp_error.RTP_MULTIPLE_PKTS_READY)
    (hscript : a.getter = frames.map (fun f => (rtp_error.RTP_PKT_READY, f)) ++ rest)
    (hstop : ∀ p, rest.head? = some p → p.1 ≠ rtp_error.RTP_PKT_READY) :
    (call_aux_handlers h).1
      = h.auxiliary.map (fun e => e.id) ++ h.auxiliary_cpp.map (fun e => e.id)
    ∧ (call_aux_handlers h).2
      = h.auxiliary.flatMap call_one_aux ++ h.auxiliary_cpp.flatMap call_one_aux
    ∧ call_one_aux a = frames := by
  refine ⟨?_, ?_, ?_⟩
  · simp [call_aux_handlers, run_aux_list_trace]
  · simp [call_aux_handlers, run_aux_list_frames]
  · obtain ⟨i, ret, fr, g⟩ := a
    simp only at hret hscript
    subst hret
    subst hscript
    simp only [call_one_aux]
    exact drain_getter_script frames rest hstop

theorem C5_aux_dispatch_witness :
    (call_aux_handlers c5_wit_handlers).1 = [4]
    ∧ call_one_aux c5_wit_aux = [11, 12] :=
  ⟨(C5_aux_dispatch c5_wit_handlers c5_wit_aux [11, 12] [(rtp_error.RTP_OK, 0)]
      rfl rfl (by intro p hp; cases hp; decide)).1,
   (C5_aux_dispatch c5_wit_handlers c5_wit_aux [11, 12] [(rtp_error.RTP_OK, 0)]
      rfl rfl (by intro p hp; cases hp; decide)).2.2⟩

/-- C8: install_handler returns key 0 exactly for a null handler; a
successful installation of a non-null handler yields a key that is nonzero
and not previously in the registry, appends the entry, and preserves the
invariant that the registry keys are unique and nonzero. -/
theorem C8_install_handler_keys (randoms : List Nat)
    (reg : List (Nat × packet_handlers)) (p : rtp_error) (key : Nat)
    (reg' : List (Nat × packet_handlers))
    (hinst : install_handler randoms reg (some p) = some (key, reg')) :
    (∀ (randoms₂ : List Nat) (reg₂ : List (Nat × packet_handlers)),
        install_handler randoms₂ reg₂ none = some (0, reg₂))
    ∧ key ≠ 0
    ∧ (∀ e ∈ reg, e.1 ≠ key)
    ∧ reg' = reg ++ [(key, { primary := p, auxiliary := [], auxiliary_cpp := [] })]
    ∧ ((reg.map (fun e => e.1)).Nodup → 0 ∉ reg.map (fun e => e.1)
        → (reg'.map (fun e => e.1)).Nodup ∧ 0 ∉ reg'.map (fun e => e.1)) := by
  obtain ⟨hk0, hkfresh, hr⟩ := install_handler_some hinst
  refine ⟨fun randoms₂ reg₂ => rfl, hk0, hkfresh, hr, ?_⟩
  intro hnodup hzero
  subst hr
  constructor
  · rw [List.map_append, List.nodup_append]
    refine ⟨hnodup, List.nodup_singleton _, ?_⟩
    intro k hk hk'
    simp only [List.map_cons, List.map_nil, List.mem_singleton] at hk'
    obtain ⟨e, he, hek⟩ := List.mem_map.mp hk
    exact hkfresh e he (hek.trans hk')
  · rw [List.map_append]
    intro hmem
    rcases List.mem_append.mp hmem with hin | hin
    · exact hzero hin
    · simp only [List.map_cons, List.map_nil, List.mem_singleton] at hin
      exact hk0 hin.symm

theorem C8_install_handler_keys_witness :
    (9 : Nat) ≠ 0
    ∧ ([(7, { primary := rtp_error.RTP_OK, auxiliary := [], auxiliary_cpp := [] }),
        (9, { primary := rtp_error.RTP_OK, auxiliary := [], auxiliary_cpp := [] })]
          : List (Nat × packet_handlers))
      = [(7, { primary := rtp_error.RTP_OK, auxiliary := [], auxiliary_cpp := [] })]
        ++ [(9, { primary := rtp_error.RTP_OK, auxiliary := [], auxiliary_cpp := [] })] :=
  ⟨(C8_install_handler_keys [0, 7, 9]
      [(7, { primary := rtp_error.RTP_OK, auxiliary := [], auxiliary_cpp := [] })]
      rtp_error.RTP_OK 9
      [(7, { primary := rtp_error.RTP_OK, auxiliary := [], auxiliary_cpp := [] }),
       (9, { primary := rtp_error.RTP_OK, auxiliary := [], auxiliary_cpp := [] })]
      (by decide)).2.1,
   (C8_install_handler_keys [0, 7, 9]
      [(7, { primary := rtp_error.RTP_OK, auxiliary := [], auxiliary_cpp := [] })]
      rtp_error.RTP_OK 9
      [(7, { primary := rtp_error.RTP_OK, auxiliary := [], auxiliary_cpp := [] }),
       (9, { primary := rtp_error.RTP_OK, auxiliary := [], auxiliary_cpp := [] })]
      (by decide)).2.2.2.1⟩
